import Mathlib

/-!
# Verification of the nineteentsp merchant-onboarding platform

Shallow embedding of the audit masking utility, the JWT expiry parsing,
the audit flush queue, the Redis fixed-window rate limiter and its
middleware, and the merchant authentication service (sign-in, OTP
verification, MFA sessions), together with theorems settling the frozen
specification claims.

Conventions:
* timestamps are naturals; `Date.now()` values are milliseconds, Redis
  TTLs are seconds (a `setEx k ttl v` performed at time `now` keeps the
  key visible while `now' < now + ttl * 1000`);
* JavaScript objects are association lists in insertion order;
* fallible external calls (Redis, Prisma, SMTP, SMS) are modelled by
  explicit outcome parameters, and thrown exceptions by explicit error
  results.
-/

namespace NineteenTsp

/-! ## JSON values (request bodies)

`packages/common/src/audit.ts` walks arbitrary parsed JSON bodies with
`Object.entries`; we model such values with a standard JSON tree.  For an
array, `Object.entries` yields the decimal indices as keys; no decimal
index contains one of the alphabetic sensitive patterns, so recursing
directly into the elements is faithful. -/

inductive Json where
  | null : Json
  | bool (b : Bool) : Json
  | num (n : Int) : Json
  | str (s : String) : Json
  | arr (elems : List Json) : Json
  | obj (fields : List (String × Json)) : Json

/-- Holds when `pat` occurs as a contiguous substring of `s` (JavaScript
`s.includes(pat)`, which is case-sensitive). -/
def charsInclude (pat : List Char) : List Char → Bool
  | [] => pat.isEmpty
  | c :: rest => pat.isPrefixOf (c :: rest) || charsInclude pat rest

/-- The `sensitiveFields` array of `maskSensitiveData`
(`packages/common/src/audit.ts`, line 12), verbatim — note the
mixed-case `"apiKey"` entry. -/
def sensitiveFields : List String :=
  ["password", "token", "otp", "pin", "secret", "apiKey", "authorization"]

/-- The check `sensitiveFields.some((field) => lowerKey.includes(field))` where
`lowerKey = key.toLowerCase()` (lowercasing spelled out on the character
list so that terms evaluate). -/
def isSensitiveKey (key : String) : Bool :=
  sensitiveFields.any
    (fun field => charsInclude field.toList (key.toList.map Char.toLower))

/-- The fixed mask token. -/
def maskToken : String := "***MASKED***"

mutual

/-- Function `maskSensitiveData` (`packages/common/src/audit.ts`, lines 6–26):
non-objects are returned unchanged; for objects and arrays each entry is
masked when its key matches a sensitive pattern, recursed into when its
value is itself an object/array, and copied otherwise. -/
def maskSensitiveData : Json → Json
  | .obj fields => .obj (maskFields fields)
  | .arr elems => .arr (maskElems elems)
  | j => j

/-- One `for (const [key, value] of Object.entries(data))` pass over an
object's fields. -/
def maskFields : List (String × Json) → List (String × Json)
  | [] => []
  | (key, value) :: rest =>
    (if isSensitiveKey key then
      (key, Json.str maskToken)
    else
      match value with
      | .obj _ => (key, maskSensitiveData value)
      | .arr _ => (key, maskSensitiveData value)
      | _ => (key, value)) :: maskFields rest

/-- The same pass over an array: indices are never sensitive keys, so an
object/array element is recursed into and a primitive kept. -/
def maskElems : List Json → List Json
  | [] => []
  | value :: rest =>
    (match value with
      | .obj _ => maskSensitiveData value
      | .arr _ => maskSensitiveData value
      | _ => value) :: maskElems rest

end

/-! ## JWT expiry parsing (`packages/common/src/auth.ts`) -/

/-- Constant `MAX_EXPIRY_SECONDS` (line 9). -/
def MAX_EXPIRY_SECONDS : Nat := 3600

/-- The regex match `expiresIn.match(/^(\d+)([smhd])$/)`: one or more
digits followed by a single unit character. -/
def expiryMatch (s : String) : Option (Nat × Char) :=
  let cs := s.toList
  match cs.getLast? with
  | none => none
  | some u =>
    let digits := cs.dropLast
    if digits ≠ [] ∧ digits.all Char.isDigit ∧
        (u = 's' ∨ u = 'm' ∨ u = 'h' ∨ u = 'd') then
      some (digits.foldl (fun a c => a * 10 + (c.toNat - '0'.toNat)) 0, u)
    else
      none

/-- The `switch (unit)` of `parseExpiryTime`. -/
def unitSeconds : Char → Nat
  | 's' => 1
  | 'm' => 60
  | 'h' => 3600
  | 'd' => 86400
  | _ => 0

/-- The number of seconds denoted by a well-formed expiry string. -/
def expirySeconds (s : String) : Option Nat :=
  (expiryMatch s).map (fun p => p.1 * unitSeconds p.2)

/-- Function `parseExpiryTime` (`auth.ts`, lines 16–42): an ill-formed string is
replaced by `"10m"`; a well-formed string is returned **unchanged** — the
`seconds > MAX_EXPIRY_SECONDS` branch only emits a `console.warn` and
falls through to `return expiresIn`. -/
def parseExpiryTime (expiresIn : String) : String :=
  match expiryMatch expiresIn with
  | none => "10m"
  | some _ => expiresIn

/-- The validity window, in seconds, of a token produced by
`generateToken` when the environment sets `JWT_EXPIRES_IN = cfg`
(`validatedExpiresIn = parseExpiryTime(JWT_EXPIRES_IN)`, line 44, passed
to `jwt.sign` at line 58). -/
def tokenValiditySeconds (cfg : String) : Option Nat :=
  expirySeconds (parseExpiryTime cfg)

/-! ## Audit flush queue
(`services/merchant-onboarding-service/src/middleware/audit.middleware.ts`)

`processAuditQueue` splices the first 100 queued entries out of
`auditLogQueue`, attempts a single `createMany`, and catches every error
(logging it).  `writeOk` models whether the batch write succeeds. -/

/-- The call `prisma.auditLog.createMany` on a batch: succeeds or raises. -/
def insertAuditBatch {α : Type} (writeOk : Bool) (batch : List α) :
    Except String (List α) :=
  if writeOk then .ok batch else .error "createMany failed"

/-- Function `processAuditQueue` (lines 23–72) restricted to one flush cycle:
returns the queue left behind for the next cycle and the list of entries
actually inserted into the store.  The function never throws — the
`catch` swallows the error after logging — which is why its result type
carries no error case. -/
def processAuditQueue {α : Type} (writeOk : Bool) (queue : List α) :
    List α × List α :=
  let batch := queue.take 100
  let rest := queue.drop 100
  match insertAuditBatch writeOk batch with
  | .ok inserted => (rest, inserted)
  | .error _ => (rest, [])

/-! ## Fixed-window rate limiter (`packages/common`, src/unnamed/part_003) -/

/-- The Redis counter backing one `(endpoint, ip, window)` key:
the parsed integer value and the absolute expiry instant installed by
`setEx` (in this section clock and TTL share one unit, seconds). -/
structure WindowState where
  count : Nat
  expiresAt : Nat
  deriving Repr, DecidableEq

/-- Structure `RateLimitResult` (part_003, lines 12–18); `resetTime` is a Unix
timestamp in the same clock as `now`. -/
structure RateLimitResult where
  allowed : Bool
  remaining : Nat
  resetTime : Nat
  limit : Nat
  deriving Repr, DecidableEq

/-- The read `redisClient.get(key)` followed by `parseInt`: a missing or expired
key reads as count 0. -/
def readCount (st : Option WindowState) (now : Nat) : Nat :=
  match st with
  | none => 0
  | some s => if now < s.expiresAt then s.count else 0

/-- The read `redisClient.ttl(key)`: remaining lifetime, 0 when absent/expired
(Redis returns a negative sentinel; only positivity is consumed). -/
def readTtl (st : Option WindowState) (now : Nat) : Nat :=
  match st with
  | none => 0
  | some s => if now < s.expiresAt then s.expiresAt - now else 0

/-- Function `checkWindowLimit` (part_003, lines 114–160) for one window of
length `windowSeconds`, at instant `now` (here the clock is in seconds,
matching the TTL unit): read the counter; if it has reached `limit`,
deny with `resetTime = now + (ttl > 0 ? ttl : windowSeconds)` and leave
the key alone; otherwise `setEx(key, windowSeconds, '1')` on a fresh
window or `incr` on a live one, and allow. -/
def checkWindowLimit (st : Option WindowState) (now limit windowSeconds : Nat) :
    RateLimitResult × Option WindowState :=
  let count := readCount st now
  if count ≥ limit then
    let ttl := readTtl st now
    ({ allowed := false
       remaining := 0
       resetTime := now + (if ttl > 0 then ttl else windowSeconds)
       limit := limit }, st)
  else
    let st' : Option WindowState :=
      if count = 0 then
        some ⟨1, now + windowSeconds⟩
      else
        match st with
        | some s => some ⟨s.count + 1, s.expiresAt⟩
        | none => some ⟨1, now + windowSeconds⟩
    let ttl' := readTtl st' now
    ({ allowed := true
       remaining := limit - count - 1
       resetTime := now + (if ttl' > 0 then ttl' else windowSeconds)
       limit := limit }, st')

/-- A client's successive requests on one window: thread the counter
state through `checkWindowLimit` at the given request instants. -/
def processRequests (st : Option WindowState) (limit windowSeconds : Nat) :
    List Nat → List RateLimitResult × Option WindowState
  | [] => ([], st)
  | t :: ts =>
    let step := checkWindowLimit st t limit windowSeconds
    let rest := processRequests step.2 limit windowSeconds ts
    (step.1 :: rest.1, rest.2)

/-- Structure `RateLimitConfig` (part_003, lines 5–10). -/
structure RateLimitConfig where
  perSecond : Nat
  perMinute : Nat
  perHour : Nat
  perDay : Nat
  deriving Repr, DecidableEq

/-- Function `checkRateLimit` (part_003, lines 166–195): run the four window
checks (each against its own Redis key), return the first exceeded
result, otherwise the one with the fewest remaining requests. -/
def checkRateLimit (stSec stMin stHour stDay : Option WindowState)
    (now : Nat) (cfg : RateLimitConfig) :
    RateLimitResult ×
      (Option WindowState × Option WindowState × Option WindowState × Option WindowState) :=
  let rSec := checkWindowLimit stSec now cfg.perSecond 1
  let rMin := checkWindowLimit stMin now cfg.perMinute 60
  let rHour := checkWindowLimit stHour now cfg.perHour 3600
  let rDay := checkWindowLimit stDay now cfg.perDay 86400
  let results := [rSec.1, rMin.1, rHour.1, rDay.1]
  let answer :=
    match results.find? (fun r => !r.allowed) with
    | some exceeded => exceeded
    | none =>
      (results.foldl (fun best r => if r.remaining < best.remaining then r else best)
        { allowed := true, remaining := 0, resetTime := 0, limit := 0 } :
        RateLimitResult)
  (answer, (rSec.2, rMin.2, rHour.2, rDay.2))

/-! ## Rate-limit middleware
(`services/merchant-onboarding-service/src/middleware/rateLimit.middleware.ts`)

Its cache interactions are summarised by one `Except` value: the outcome
of `checkRateLimit` (any Redis fault inside it surfaces here as
`.error`). -/

/-- What the middleware does with the request. -/
inductive MiddlewareOutcome where
  | proceed : MiddlewareOutcome
  | tooManyRequests : MiddlewareOutcome
  deriving Repr, DecidableEq

/-- Function `rateLimitMiddleware` (lines 30–112): health/docs URLs skip; an
unknown client IP skips; no configured limit skips; a denied result
raises `TooManyRequestsError`, which the `catch` re-throws; every other
error — a cache fault — is logged and the request allowed. -/
def rateLimitMiddleware (skipUrl ipUnknown : Bool) (cfg : Option RateLimitConfig)
    (check : Except String RateLimitResult) : MiddlewareOutcome :=
  if skipUrl then .proceed
  else if ipUnknown then .proceed
  else
    match cfg with
    | none => .proceed
    | some _ =>
      match check with
      | .error _ => .proceed
      | .ok result => if result.allowed then .proceed else .tooManyRequests

/-! ## Merchant authentication service (src/unnamed/part_013)

The model follows one merchant account; the `merchantId` / `email` /
`mobile` identity fields only route database lookups and are omitted.
Clock values are milliseconds (`Date.now()`). -/

/-- The `merchants_master` columns the service reads and writes. -/
structure Merchant where
  kycVerified : Bool
  isActive : Bool
  is2faActive : Bool
  isMobileVerified : Bool
  isEmailVerified : Bool
  password : String
  deriving Repr, DecidableEq

/-- The field `input.otpType`: `'email' | 'mobile' | 'sms'`. -/
inductive Channel where
  | email : Channel
  | mobile : Channel
  | sms : Channel
  deriving Repr, DecidableEq

/-- Interface `MfaSession` (part_013, lines 189–198). -/
structure MfaSession where
  emailOtpVerified : Bool
  smsOtpVerified : Bool
  isMfaOnly : Bool
  expiresAt : Nat
  attempts : Nat
  deriving Repr, DecidableEq

/-- A session value held under `mfa:session:<token>` together with the
instant at which its `setEx` TTL elapses. -/
structure StoredSession where
  session : MfaSession
  redisExpiresAt : Nat
  deriving Repr, DecidableEq

/-- The read `redisClient.get`: the value while the TTL has not elapsed. -/
def redisGetSession (store : Option StoredSession) (now : Nat) :
    Option MfaSession :=
  match store with
  | none => none
  | some st => if now < st.redisExpiresAt then some st.session else none

/-- The quantity `Math.floor((expiresAt - now) / 1000)` seconds, converted back to the
millisecond clock: the lifetime granted by the `setEx` rewrites at
part_013 lines 734–738 and 894–898 (reached only when `now ≤ expiresAt`,
the session-expiry guard having passed). -/
def remainingTtlMs (expiresAt now : Nat) : Nat :=
  ((expiresAt - now) / 1000) * 1000

/-- The `authService.signIn` outcome (after the merchant was found). -/
inductive SignInResult where
  | invalidCredentials : SignInResult
  | smsUnavailable : SignInResult
  | otpRequired (needsEmail needsSms : Bool) : SignInResult
  | invalidState : SignInResult
  deriving Repr, DecidableEq

/-- Function `authService.signIn` (part_013, lines 367–586).  Here `passwordOk`
abstracts `comparePassword`; `emailSendOk` / `smsSendOk` are the
Notification Channel dispatch outcomes.  The returned store is the MFA
session written to Redis (written *before* any OTP dispatch, so it is in
place even when the SMS branch aborts with the 503).  A failed email
dispatch is caught and only logged (lines 458–464); a failed SMS
dispatch raises the 503 `AppError` (lines 483–494 and 555–565). -/
def signIn (m : Merchant) (now : Nat)
    (passwordOk emailSendOk smsSendOk : Bool) :
    SignInResult × Option StoredSession :=
  if !passwordOk then
    (.invalidCredentials, none)
  else if !m.isActive || !m.isEmailVerified || !m.isMobileVerified then
    -- Case 1: first-time activation
    let session : MfaSession :=
      { emailOtpVerified := m.isEmailVerified
        smsOtpVerified := m.isMobileVerified
        isMfaOnly := false
        expiresAt := now + 10 * 60 * 1000
        attempts := 0 }
    let stored : StoredSession := ⟨session, now + 600 * 1000⟩
    if !m.isMobileVerified && !smsSendOk then
      (.smsUnavailable, some stored)
    else
      (.otpRequired (!m.isEmailVerified) (!m.isMobileVerified), some stored)
  else if m.is2faActive then
    -- Case 2: routine MFA (account active, both channels verified)
    let session : MfaSession :=
      { emailOtpVerified := true
        smsOtpVerified := false
        isMfaOnly := true
        expiresAt := now + 10 * 60 * 1000
        attempts := 0 }
    let stored : StoredSession := ⟨session, now + 600 * 1000⟩
    if !smsSendOk then
      (.smsUnavailable, some stored)
    else
      (.otpRequired false true, some stored)
  else
    -- Case 3: unexpected account state
    (.invalidState, none)

/-- The newest unused `merchant_otp` row matching
`(email, otp, otpType)`, if any, abstracted to its expiry instant. -/
inductive OtpLookup where
  | notFound : OtpLookup
  | found (expiresAt : Nat) : OtpLookup
  deriving Repr, DecidableEq

/-- The `authService.verifyOtp` outcome. -/
inductive VerifyResult where
  | errSessionInvalid : VerifyResult
  | errSessionExpired : VerifyResult
  | errTooManyAttempts : VerifyResult
  | errChannelNotAllowed : VerifyResult
  | errInvalidOtp : VerifyResult
  | errOtpExpired : VerifyResult
  | issuedToken (m : Merchant) : VerifyResult
  | pendingOther (needsEmail needsSms : Bool) : VerifyResult
  deriving Repr, DecidableEq

/-- The mutable state `verifyOtp` acts on: the Redis session slot and
the merchant row. -/
structure AuthState where
  store : Option StoredSession
  merchant : Merchant
  deriving Repr, DecidableEq

/-- The activation update (part_013, lines 840–847): one write setting
`isActive`, `is2faActive`, `isEmailVerified`, `isMobileVerified`. -/
def activateMerchant (m : Merchant) : Merchant :=
  { m with
    isActive := true
    is2faActive := true
    isEmailVerified := true
    isMobileVerified := true }

/-- The session-path tail of `verifyOtp` (part_013, lines 716–932),
entered with the retrieved, unexpired, non-locked session `s`. -/
def verifyOtpWithSession (st : AuthState) (now : Nat) (s : MfaSession)
    (otpType : Channel) (lookup : OtpLookup) : VerifyResult × AuthState :=
  match lookup with
  | .notFound =>
    -- invalid OTP: bump attempts, rewrite the session with its
    -- remaining TTL (lines 729-741)
    let s' := { s with attempts := s.attempts + 1 }
    (.errInvalidOtp,
     { st with store := some ⟨s', now + remainingTtlMs s.expiresAt now⟩ })
  | .found otpExpiresAt =>
    if otpExpiresAt < now then
      (.errOtpExpired, st)
    else
      -- the OTP row is marked used (line 749); the table is not
      -- tracked beyond the lookup
      if s.isMfaOnly then
        match otpType with
        | .mobile | .sms =>
          -- routine MFA complete: delete the session, issue the JWT
          (.issuedToken st.merchant, { st with store := none })
        | .email =>
          -- unreachable: rejected by the line 705 guard before lookup
          (.errChannelNotAllowed, st)
      else
        -- first-time activation
        let s' :=
          match otpType with
          | .email => { s with emailOtpVerified := true }
          | .mobile | .sms => { s with smsOtpVerified := true }
        if s'.emailOtpVerified && s'.smsOtpVerified then
          let m' := activateMerchant st.merchant
          (.issuedToken m', { store := none, merchant := m' })
        else
          -- keep the session under its remaining TTL, persist the
          -- verified channel flag, ask for the other channel
          let m' :=
            match otpType with
            | .email => { st.merchant with isEmailVerified := true }
            | .mobile | .sms => { st.merchant with isMobileVerified := true }
          (.pendingOther (!s'.emailOtpVerified) (!s'.smsOtpVerified),
           { store := some ⟨s', now + remainingTtlMs s.expiresAt now⟩
             merchant := m' })

/-- The legacy (no session token) tail of `verifyOtp` (part_013,
lines 933–1005). -/
def verifyOtpLegacy (st : AuthState) (now : Nat) (otpType : Channel)
    (lookup : OtpLookup) : VerifyResult × AuthState :=
  match lookup with
  | .notFound => (.errInvalidOtp, st)
  | .found otpExpiresAt =>
    if otpExpiresAt < now then
      (.errOtpExpired, st)
    else
      let m := st.merchant
      let willBeEmailVerified :=
        match otpType with
        | .email => true
        | _ => m.isEmailVerified
      let willBeMobileVerified :=
        match otpType with
        | .mobile | .sms => true
        | _ => m.isMobileVerified
      let m1 :=
        match otpType with
        | .email => { m with isEmailVerified := true }
        | .mobile | .sms => { m with isMobileVerified := true }
      let m2 :=
        if willBeEmailVerified && willBeMobileVerified then
          { m1 with isActive := true, is2faActive := true }
        else m1
      if willBeEmailVerified && willBeMobileVerified then
        (.issuedToken m2, { st with merchant := m2 })
      else
        (.pendingOther (!willBeEmailVerified) (!willBeMobileVerified),
         { st with merchant := m2 })

/-- Function `authService.verifyOtp` (part_013, lines 677–1006).  Here `hasSessionToken`
says whether the caller supplied `mfaSessionToken`; `lookup` is the
result of the `merchant_otp` query for the supplied code. -/
def verifyOtp (st : AuthState) (now : Nat) (hasSessionToken : Bool)
    (otpType : Channel) (lookup : OtpLookup) : VerifyResult × AuthState :=
  if hasSessionToken then
    match redisGetSession st.store now with
    | none => (.errSessionInvalid, st)
    | some s =>
      if s.expiresAt < now then
        (.errSessionExpired, { st with store := none })
      else if s.attempts ≥ 3 then
        (.errTooManyAttempts, { st with store := none })
      else if s.isMfaOnly && (otpType = Channel.email) then
        (.errChannelNotAllowed, st)
      else
        verifyOtpWithSession st now s otpType lookup
  else
    verifyOtpLegacy st now otpType lookup

/-- The account row created by `authService.signUp` (part_013,
lines 322–336): every status flag starts false. -/
def signUpMerchant (passwordHash : String) : Merchant :=
  { kycVerified := false
    isActive := false
    is2faActive := false
    isMobileVerified := false
    isEmailVerified := false
    password := passwordHash }

/-- The `authService.verifyPasswordReset` outcome. -/
inductive PasswordResetResult where
  | errPasswordTooShort : PasswordResetResult
  | errInvalidOtp : PasswordResetResult
  | resetDone : PasswordResetResult
  deriving Repr, DecidableEq

/-- Function `authService.verifyPasswordReset` (part_013, lines 1084–1149):
`otpFound` abstracts the lookup (whose query already filters expired
rows); the only account write replaces the password hash. -/
def verifyPasswordReset (m : Merchant) (newPasswordLength : Nat)
    (newHash : String) (otpFound : Bool) : PasswordResetResult × Merchant :=
  if newPasswordLength < 8 then
    (.errPasswordTooShort, m)
  else if !otpFound then
    (.errInvalidOtp, m)
  else
    (.resetDone, { m with password := newHash })

/-- The Authentication State Machine invariant: an active account has
both channels verified. -/
def accountInvariant (m : Merchant) : Prop :=
  m.isActive = true → m.isEmailVerified = true ∧ m.isMobileVerified = true

instance (m : Merchant) : Decidable (accountInvariant m) := by
  unfold accountInvariant; infer_instance

/-- The sign-in paths that dispatch an SMS one-time code: the
first-activation branch does so when the phone is unverified
(part_013, lines 467–494), the routine-MFA branch always
(lines 539–565). -/
def signInSendsSms (m : Merchant) : Bool :=
  if !m.isActive || !m.isEmailVerified || !m.isMobileVerified then
    !m.isMobileVerified
  else
    m.is2faActive

/-! ## Claim C1 — sensitive-field masking

The claim requires every key matching one of the patterns `password`,
`token`, `otp`, `pin`, `secret`, `apiKey`, `authorization` —
*case-insensitively* — to be masked.  The code lowercases the key and
then runs the case-sensitive `lowerKey.includes(field)` against the
verbatim list entries; the mixed-case entry `"apiKey"` therefore never
matches any lowercased key, and an `apiKey` field's value survives
masking unchanged. -/

/-- C1 (code bug): the body `{"apiKey": "sk-live-12345"}` passes through
`maskSensitiveData` completely unchanged — the `apiKey` pattern is dead:
no lowercased key can contain the mixed-case substring `"apiKey"` —
while the lowercase patterns (e.g. `password`) do mask. -/
theorem maskSensitiveData_apiKey_leaks :
    isSensitiveKey "apiKey" = false ∧
    maskSensitiveData (Json.obj [("apiKey", Json.str "sk-live-12345")])
      = Json.obj [("apiKey", Json.str "sk-live-12345")] ∧
    maskSensitiveData (Json.obj [("password", Json.str "hunter2")])
      = Json.obj [("password", Json.str maskToken)] := by
  refine ⟨by decide, rfl, rfl⟩

/-! ## Claim C3 — token validity cap

`parseExpiryTime`'s own doc comment says it "Ensures tokens don't have
excessively long expiry times" and `MAX_EXPIRY_SECONDS` is introduced as
"Validate that expiry is not too long (max 1 hour for security)", but
the `seconds > MAX_EXPIRY_SECONDS` branch only `console.warn`s and the
function returns the configured string unchanged, so `generateToken`
signs with the over-long expiry. -/

/-- C3 (code bug): with `JWT_EXPIRES_IN = "24h"` the validated expiry is
still `"24h"` and every issued token is valid for 86400 seconds — far
beyond the 3600-second ceiling the claim (and the code's comments)
require. -/
theorem parseExpiryTime_cap_not_enforced :
    parseExpiryTime "24h" = "24h" ∧
    tokenValiditySeconds "24h" = some 86400 ∧
    MAX_EXPIRY_SECONDS < 86400 := by
  refine ⟨rfl, by decide, by decide⟩

/-! ## Claim C5 — audit flush failure

`processAuditQueue` splices the batch out of `auditLogQueue` *before*
the `createMany`; the `catch` only logs, so a failed batch is gone.  The
non-propagation half of the claim holds (the function always returns
normally); the retention half does not. -/

/-- C5 counterexample: one queued entry, failing write — the entry is
neither inserted nor left in the queue, contradicting "the dequeued
batch of entries remains queued so it is retried on the next flush
cycle". -/
theorem processAuditQueue_loses_failed_batch :
    processAuditQueue false [(0 : Nat)] = ([], []) := rfl

/-- C5 amended: a failed flush never propagates (the cycle returns
normally) and leaves exactly the entries *beyond* the spliced batch of
100 in the queue; the failed batch itself is discarded, not retried. -/
theorem processAuditQueue_failure_swallowed {α : Type} (queue : List α) :
    processAuditQueue false queue = (queue.drop 100, []) := by
  simp [processAuditQueue, insertAuditBatch]

/-! ## Claim C2 — exactly `limit` requests per window

Step lemmas for `checkWindowLimit`, then the behaviour of a whole
request sequence inside one window. -/

/-- A live counter below the limit: the request is allowed and the
counter incremented under its original expiry. -/
lemma checkWindowLimit_incr (k e now limit W : Nat)
    (hk : 1 ≤ k) (hcap : k < limit) (hnow : now < e) :
    checkWindowLimit (some ⟨k, e⟩) now limit W
      = ({ allowed := true, remaining := limit - k - 1,
           resetTime := now + (e - now), limit := limit },
         some ⟨k + 1, e⟩) := by
  unfold checkWindowLimit readCount readTtl
  simp only [if_pos hnow]
  rw [if_neg (by omega)]
  have hk0 : ¬(k = 0) := by omega
  simp only [if_neg hk0, if_pos hnow]
  rw [if_pos (by omega)]

/-- A live counter at (or beyond) the limit: the request is denied, the
counter untouched, and the reset hint is the key's remaining TTL. -/
lemma checkWindowLimit_denied (k e now limit W : Nat)
    (hcap : limit ≤ k) (hnow : now < e) :
    checkWindowLimit (some ⟨k, e⟩) now limit W
      = ({ allowed := false, remaining := 0,
           resetTime := now + (e - now), limit := limit },
         some ⟨k, e⟩) := by
  unfold checkWindowLimit readCount readTtl
  simp only [if_pos hnow]
  rw [if_pos (by omega)]
  rw [if_pos (by omega)]

/-- An absent or expired counter: the request is allowed and a fresh
counter installed with the full window TTL. -/
lemma checkWindowLimit_fresh (st : Option WindowState) (now limit W : Nat)
    (hread : readCount st now = 0) (hlimit : 1 ≤ limit) (hW : 1 ≤ W) :
    checkWindowLimit st now limit W
      = ({ allowed := true, remaining := limit - 1,
           resetTime := now + W, limit := limit },
         some ⟨1, now + W⟩) := by
  simp only [checkWindowLimit, hread]
  rw [if_neg (show ¬ 0 ≥ limit by omega)]
  simp only [if_true, readTtl]
  rw [if_pos (show now < now + W by omega)]
  rw [if_pos (show now + W - now > 0 by omega)]
  have e1 : limit - 0 - 1 = limit - 1 := by omega
  have e2 : now + W - now = W := by omega
  rw [e1, e2]

/-- Requests arriving while the window key `⟨k, t1 + W⟩` is live (all
instants in `[t1, t1 + W)`): the next `limit - k` are allowed, all later
ones denied with a reset hint at most the window length, and the counter
saturates without its expiry moving. -/
lemma processRequests_saturating (limit W t1 : Nat) :
    ∀ (ts : List Nat) (k : Nat), 1 ≤ k →
      (∀ t ∈ ts, t1 ≤ t ∧ t < t1 + W) →
      (∀ r ∈ (processRequests (some ⟨k, t1 + W⟩) limit W ts).1.take (limit - k),
          r.allowed = true) ∧
      (∀ p ∈ (ts.zip (processRequests (some ⟨k, t1 + W⟩) limit W ts).1).drop (limit - k),
          p.2.allowed = false ∧ p.2.resetTime ≤ p.1 + W) ∧
      (processRequests (some ⟨k, t1 + W⟩) limit W ts).2
        = some ⟨k + min ts.length (limit - k), t1 + W⟩
  | [], k, hk, hts => by
      simp [processRequests]
  | t :: ts, k, hk, hts => by
      obtain ⟨htl, htr⟩ := hts t (List.mem_cons_self t ts)
      have htail : ∀ u ∈ ts, t1 ≤ u ∧ u < t1 + W :=
        fun u hu => hts u (List.mem_cons_of_mem t hu)
      by_cases hcap : k < limit
      · have ih := processRequests_saturating limit W t1 ts (k + 1)
          (by omega) htail
        simp only [processRequests, checkWindowLimit_incr k (t1 + W) t limit W hk hcap htr]
        have hsplit : limit - k = (limit - (k + 1)) + 1 := by omega
        refine ⟨?_, ?_, ?_⟩
        · rw [hsplit]
          intro r hr
          rw [List.take_succ_cons] at hr
          rcases List.mem_cons.mp hr with h | h
          · rw [h]
          · exact ih.1 r h
        · rw [hsplit]
          intro p hp
          rw [List.zip_cons_cons, List.drop_succ_cons] at hp
          exact ih.2.1 p hp
        · rw [ih.2.2]
          congr 2
          simp only [List.length_cons]
          omega
      · have ih := processRequests_saturating limit W t1 ts k hk htail
        simp only [processRequests,
          checkWindowLimit_denied k (t1 + W) t limit W (by omega) htr]
        have hz : limit - k = 0 := by omega
        refine ⟨?_, ?_, ?_⟩
        · rw [hz]
          intro r hr
          simp at hr
        · rw [hz]
          intro p hp
          rw [List.zip_cons_cons, List.drop_zero] at hp
          rcases List.mem_cons.mp hp with h | h
          · rw [h]
            refine ⟨rfl, ?_⟩
            simp only
            omega
          · have := ih.2.1 p
            rw [hz, List.drop_zero] at this
            exact this h
        · rw [ih.2.2]
          congr 2
          simp only [List.length_cons]
          omega

/-- C2: from an empty counter, a sequence of requests starting at `t1`
and staying inside the window `[t1, t1 + W)` sees exactly the first
`limit` allowed; every later request in the window (in particular the
`limit + 1`-th) is denied with a retry hint (`resetTime` minus the
request instant) of at most the window length `W`; and once the window's
TTL has elapsed the counter reads zero again and a new request is
allowed. -/
theorem checkWindowLimit_exactly_limit_per_window
    (limit W t1 : Nat) (rest : List Nat) (hlimit : 1 ≤ limit) (hW : 1 ≤ W)
    (hrest : ∀ t ∈ rest, t1 ≤ t ∧ t < t1 + W) :
    (∀ r ∈ (processRequests none limit W (t1 :: rest)).1.take limit,
        r.allowed = true) ∧
    (∀ p ∈ ((t1 :: rest).zip (processRequests none limit W (t1 :: rest)).1).drop limit,
        p.2.allowed = false ∧ p.2.resetTime ≤ p.1 + W) ∧
    (∀ t', t1 + W ≤ t' →
        readCount (processRequests none limit W (t1 :: rest)).2 t' = 0 ∧
        (checkWindowLimit (processRequests none limit W (t1 :: rest)).2 t' limit W).1.allowed
          = true) := by
  cases limit with
  | zero => omega
  | succ L =>
    have hfresh := checkWindowLimit_fresh none t1 (L + 1) W rfl (by omega) hW
    have hsat := processRequests_saturating (L + 1) W t1 rest 1 le_rfl hrest
    have hL : (L + 1) - 1 = L := by omega
    rw [hL] at hsat
    simp only [processRequests, hfresh]
    refine ⟨?_, ?_, ?_⟩
    · intro r hr
      rw [List.take_succ_cons] at hr
      rcases List.mem_cons.mp hr with h | h
      · rw [h]
      · exact hsat.1 r h
    · intro p hp
      rw [List.zip_cons_cons, List.drop_succ_cons] at hp
      exact hsat.2.1 p hp
    · intro t' ht'
      rw [hsat.2.2]
      constructor
      · simp only [readCount]
        rw [if_neg (show ¬ t' < t1 + W by omega)]
      · simp only [checkWindowLimit, readCount]
        rw [if_neg (show ¬ t' < t1 + W by omega)]
        rw [if_neg (show ¬ 0 ≥ L + 1 by omega)]

/-- C2 witness: limit 2, window 60 s, requests at 100 s, 110 s and
120 s — the first two are allowed, the third denied with a hint ≤ 60 s,
and any request from 160 s on is allowed again. -/
theorem checkWindowLimit_exactly_limit_per_window_witness :
    (1 ≤ 2 ∧ 1 ≤ 60 ∧ ∀ t ∈ [110, 120], 100 ≤ t ∧ t < 100 + 60) ∧
    ((∀ r ∈ (processRequests none 2 60 (100 :: [110, 120])).1.take 2,
        r.allowed = true) ∧
     (∀ p ∈ ((100 :: [110, 120]).zip
          (processRequests none 2 60 (100 :: [110, 120])).1).drop 2,
        p.2.allowed = false ∧ p.2.resetTime ≤ p.1 + 60) ∧
     (∀ t', 100 + 60 ≤ t' →
        readCount (processRequests none 2 60 (100 :: [110, 120])).2 t' = 0 ∧
        (checkWindowLimit (processRequests none 2 60 (100 :: [110, 120])).2
            t' 2 60).1.allowed = true)) :=
  ⟨⟨by omega, by omega, by decide⟩,
   checkWindowLimit_exactly_limit_per_window 2 60 100 [110, 120]
     (by omega) (by omega) (by decide)⟩

/-! ## Claim C9 — rate limiter fails open -/

/-- C9: on any cache fault during the rate-limit check (any error other
than the limit denial itself, which is modelled by an `.ok` result with
`allowed = false`), the middleware lets the request proceed instead of
blocking it or re-raising the error. -/
theorem rateLimitMiddleware_fails_open (cfg : Option RateLimitConfig)
    (msg : String) :
    rateLimitMiddleware false false cfg (.error msg) = .proceed := by
  cases cfg <;> rfl

/-! ## Claim C4 — notification dispatch failure during sign-in

The SMS `catch` blocks re-throw a 503 `AppError`, but the email `catch`
block (part_013, lines 461–464) only logs and continues — an email
dispatch failure is swallowed and sign-in still succeeds. -/

/-- C4 counterexample: an unactivated merchant with verified phone but
unverified email signs in; the email one-time code is dispatched and the
dispatch **fails**, yet sign-in returns the successful
"OTP required" response instead of the claimed 503. -/
theorem signIn_email_dispatch_failure_swallowed :
    (signIn ⟨false, false, false, true, false, "hash"⟩ 0 true false true).1
      = SignInResult.otpRequired true false := rfl

/-- C4 amended: a failed **SMS** dispatch surfaces as the 503
service-unavailable error whenever an SMS is sent, while the outcome of
sign-in is entirely independent of the email channel's dispatch result
(an email failure is logged and swallowed). -/
theorem signIn_sms_failure_503_email_failure_ignored
    (m : Merchant) (now : Nat) (emailSendOk smsSendOk : Bool) :
    signIn m now true emailSendOk smsSendOk
      = signIn m now true true smsSendOk ∧
    (smsSendOk = false → signInSendsSms m = true →
      (signIn m now true emailSendOk smsSendOk).1
        = SignInResult.smsUnavailable) := by
  refine ⟨rfl, fun hs hsms => ?_⟩
  subst hs
  obtain ⟨kyc, act, tfa, mob, em, pw⟩ := m
  simp only [signIn, signInSendsSms] at *
  cases act <;> cases em <;> cases mob <;> cases tfa <;> simp_all

/-- C4 amended witness: a fresh merchant (nothing verified) signing in
while the SMS gateway is down receives the 503. -/
theorem signIn_sms_failure_503_email_failure_ignored_witness :
    (signIn ⟨false, false, false, false, false, "hash"⟩ 9 true false false).1
      = SignInResult.smsUnavailable :=
  (signIn_sms_failure_503_email_failure_ignored
      ⟨false, false, false, false, false, "hash"⟩ 9 false false).2 rfl rfl

/-! ## Shared facts about `verifyOtp` -/

/-- The `setEx` rewrite grants at least one second of visibility while at
least a full second of session life remains. -/
lemma remainingTtlMs_pos (e now : Nat) (h : now + 1000 ≤ e) :
    1000 ≤ remainingTtlMs e now := by
  unfold remainingTtlMs
  have h1 : 1 ≤ (e - now) / 1000 := by
    rw [Nat.le_div_iff_mul_le (by norm_num)]
    omega
  omega

/-- The `setEx` rewrite never outlives the session's own `expiresAt`. -/
lemma remainingTtlMs_le (e now : Nat) (h : now ≤ e) :
    now + remainingTtlMs e now ≤ e := by
  unfold remainingTtlMs
  have h1 : (e - now) / 1000 * 1000 ≤ e - now := Nat.div_mul_le_self _ _
  omega

/-- When the session is retrieved, unexpired, below the attempt cap and
not hit by the channel guard, `verifyOtp` proceeds to the session tail. -/
lemma verifyOtp_gates_passed (st : AuthState) (now : Nat) (s : MfaSession)
    (re : Nat) (ch : Channel) (lk : OtpLookup)
    (hstore : st.store = some ⟨s, re⟩) (hvis : now < re)
    (hexp : ¬ s.expiresAt < now) (hatt : s.attempts < 3)
    (hch : (s.isMfaOnly && decide (ch = Channel.email)) = false) :
    verifyOtp st now true ch lk = verifyOtpWithSession st now s ch lk := by
  unfold verifyOtp redisGetSession
  rw [hstore]
  simp only [if_pos hvis]
  rw [if_neg hexp]
  rw [if_neg (show ¬ s.attempts ≥ 3 by omega)]
  rw [hch]
  simp

/-- When the session is retrieved with its attempt budget exhausted,
`verifyOtp` rejects the call (whatever the code supplied) and destroys
the session, touching nothing else. -/
lemma verifyOtp_lockout (st : AuthState) (now : Nat) (s : MfaSession)
    (re : Nat) (ch : Channel) (lk : OtpLookup)
    (hstore : st.store = some ⟨s, re⟩) (hvis : now < re)
    (hexp : ¬ s.expiresAt < now) (hatt : 3 ≤ s.attempts) :
    verifyOtp st now true ch lk
      = (.errTooManyAttempts, { st with store := none }) := by
  unfold verifyOtp redisGetSession
  rw [hstore]
  simp only [if_pos hvis]
  rw [if_neg hexp]
  rw [if_pos (show s.attempts ≥ 3 from hatt)]
  simp

/-! ## Claim C6 — three failed checks lock the session -/

/-- C6: from a fresh session (attempt counter 0, at least a second of
life left), three OTP checks against codes with no matching record each
fail with "invalid OTP"; the fourth attempt — now against an exhausted
session, and *even with a valid, unexpired code* — fails with "too many
attempts" and deletes the session; across all four calls the merchant
row is untouched. -/
theorem mfaSession_lockout_after_three_failures
    (m : Merchant) (se ss sm : Bool) (sexp re now otpExp : Nat) (ch : Channel)
    (hvis : now < re) (hlife : now + 1000 ≤ sexp)
    (hch : sm = false ∨ ch ≠ Channel.email) :
    let st0 : AuthState := ⟨some ⟨⟨se, ss, sm, sexp, 0⟩, re⟩, m⟩
    let a1 := verifyOtp st0 now true ch .notFound
    let a2 := verifyOtp a1.2 now true ch .notFound
    let a3 := verifyOtp a2.2 now true ch .notFound
    let a4 := verifyOtp a3.2 now true ch (.found otpExp)
    a1.1 = .errInvalidOtp ∧ a2.1 = .errInvalidOtp ∧ a3.1 = .errInvalidOtp ∧
    a4.1 = .errTooManyAttempts ∧ a4.2.store = none ∧
    a1.2.merchant = m ∧ a2.2.merchant = m ∧ a3.2.merchant = m ∧
    a4.2.merchant = m := by
  intro st0 a1 a2 a3 a4
  have hcond : ∀ b1 b2 : Bool, (⟨b1, b2, sm, sexp, 0⟩ : MfaSession).attempts = 0 :=
    fun _ _ => rfl
  have hc : (sm && decide (ch = Channel.email)) = false := by
    rcases hch with h | h <;> simp [h]
  have hvis' : now < now + remainingTtlMs sexp now := by
    have := remainingTtlMs_pos sexp now hlife
    omega
  have e1 : a1 = (.errInvalidOtp,
      ⟨some ⟨⟨se, ss, sm, sexp, 1⟩, now + remainingTtlMs sexp now⟩, m⟩) := by
    show verifyOtp st0 now true ch .notFound = _
    rw [verifyOtp_gates_passed st0 now ⟨se, ss, sm, sexp, 0⟩ re ch .notFound rfl
      hvis (by exact show ¬ sexp < now by omega) (by exact show (0 : Nat) < 3 by omega) hc]
    rfl
  have e2 : a2 = (.errInvalidOtp,
      ⟨some ⟨⟨se, ss, sm, sexp, 2⟩, now + remainingTtlMs sexp now⟩, m⟩) := by
    show verifyOtp a1.2 now true ch .notFound = _
    rw [e1]
    rw [verifyOtp_gates_passed _ now ⟨se, ss, sm, sexp, 1⟩ _ ch .notFound rfl
      hvis' (by exact show ¬ sexp < now by omega) (by exact show (1 : Nat) < 3 by omega) hc]
    rfl
  have e3 : a3 = (.errInvalidOtp,
      ⟨some ⟨⟨se, ss, sm, sexp, 3⟩, now + remainingTtlMs sexp now⟩, m⟩) := by
    show verifyOtp a2.2 now true ch .notFound = _
    rw [e2]
    rw [verifyOtp_gates_passed _ now ⟨se, ss, sm, sexp, 2⟩ _ ch .notFound rfl
      hvis' (by exact show ¬ sexp < now by omega) (by exact show (2 : Nat) < 3 by omega) hc]
    rfl
  have e4 : a4 = (.errTooManyAttempts,
      ⟨none, m⟩) := by
    show verifyOtp a3.2 now true ch (.found otpExp) = _
    rw [e3]
    rw [verifyOtp_lockout _ now ⟨se, ss, sm, sexp, 3⟩ _ ch (.found otpExp) rfl
      hvis' (by exact show ¬ sexp < now by omega) (by exact show (3 : Nat) ≤ 3 by omega)]
  rw [e1, e2, e3, e4]
  exact ⟨rfl, rfl, rfl, rfl, rfl, rfl, rfl, rfl, rfl⟩

/-- C6 witness: a concrete fresh session locked out after three bad
codes, the fourth attempt failing despite a valid code. -/
theorem mfaSession_lockout_after_three_failures_witness :
    (verifyOtp (verifyOtp (verifyOtp (verifyOtp
        ⟨some ⟨⟨false, false, false, 5000, 0⟩, 5000⟩,
         ⟨false, false, false, false, false, "h"⟩⟩
        0 true .sms .notFound).2
        0 true .sms .notFound).2
        0 true .sms .notFound).2
        0 true .sms (.found 7)).1 = .errTooManyAttempts :=
  (mfaSession_lockout_after_three_failures
      ⟨false, false, false, false, false, "h"⟩ false false false 5000 5000 0 7 .sms
      (by omega) (by omega) (Or.inl rfl)).2.2.2.1

/-! ## Claim C7 — first-activation token iff both channels verified -/

/-- C7: in a first-activation session (flags `se`/`ss`, unexpired, under
the attempt cap) a successful OTP check for channel `ch` issues the
signed token exactly when the updated pair of channel flags `s'` is both
true — in which case the account is activated in the same write and the
session deleted; otherwise no token is issued, the session survives with
its flags updated under its remaining TTL, the verified channel's flag
is persisted on the account, and the response asks for the other
channel. -/
theorem firstActivation_token_iff_both_channels
    (m : Merchant) (se ss : Bool) (sexp sat re now otpExp : Nat) (ch : Channel)
    (hvis : now < re) (hexp : now ≤ sexp) (hatt : sat < 3) (hotp : now ≤ otpExp)
    (s' : MfaSession)
    (hs' : s' = match ch with
      | .email => ⟨true, ss, false, sexp, sat⟩
      | .mobile | .sms => ⟨se, true, false, sexp, sat⟩)
    (out : VerifyResult × AuthState)
    (hout : out = verifyOtp ⟨some ⟨⟨se, ss, false, sexp, sat⟩, re⟩, m⟩ now true ch
        (.found otpExp)) :
    ((s'.emailOtpVerified && s'.smsOtpVerified) = true →
      out.1 = .issuedToken (activateMerchant m) ∧
      out.2 = ⟨none, activateMerchant m⟩) ∧
    ((s'.emailOtpVerified && s'.smsOtpVerified) = false →
      out.1 = .pendingOther (!s'.emailOtpVerified) (!s'.smsOtpVerified) ∧
      out.2.store = some ⟨s', now + remainingTtlMs sexp now⟩ ∧
      out.2.merchant = (match ch with
        | .email => { m with isEmailVerified := true }
        | .mobile | .sms => { m with isMobileVerified := true })) ∧
    (∀ m', out.1 = .issuedToken m' →
      (s'.emailOtpVerified && s'.smsOtpVerified) = true) := by
  subst hs' hout
  have hg := verifyOtp_gates_passed ⟨some ⟨⟨se, ss, false, sexp, sat⟩, re⟩, m⟩
    now ⟨se, ss, false, sexp, sat⟩ re ch (.found otpExp) rfl
    hvis (by exact show ¬ sexp < now by omega) hatt
    (by exact (by simp : (false && decide (ch = Channel.email)) = false))
  simp only [hg, verifyOtpWithSession]
  rw [if_neg (show ¬ otpExp < now by omega)]
  cases ch <;> cases se <;> cases ss <;> simp_all [activateMerchant]

/-- C7 witness: with the email flag already true, a successful SMS check
issues the token and activates the account. -/
theorem firstActivation_token_iff_both_channels_witness :
    (verifyOtp ⟨some ⟨⟨true, false, false, 5000, 0⟩, 10⟩,
        ⟨false, false, false, false, false, "h"⟩⟩ 0 true .sms (.found 3)).1
      = .issuedToken (activateMerchant ⟨false, false, false, false, false, "h"⟩) ∧
    (verifyOtp ⟨some ⟨⟨true, false, false, 5000, 0⟩, 10⟩,
        ⟨false, false, false, false, false, "h"⟩⟩ 0 true .sms (.found 3)).2
      = ⟨none, activateMerchant ⟨false, false, false, false, false, "h"⟩⟩ :=
  (firstActivation_token_iff_both_channels
      ⟨false, false, false, false, false, "h"⟩ true false 5000 0 10 0 3 .sms
      (by omega) (by omega) (by omega) (by omega) _ rfl _ rfl).1 rfl

/-! ## Claim C8 — active implies both channels verified -/

/-- The session tail of `verifyOtp` preserves the activation invariant:
its only merchant writes are the all-flags activation and single-channel
flag persistence. -/
lemma verifyOtpWithSession_invariant (st : AuthState) (now : Nat)
    (s : MfaSession) (ch : Channel) (lk : OtpLookup)
    (hinv : accountInvariant st.merchant) :
    accountInvariant (verifyOtpWithSession st now s ch lk).2.merchant := by
  obtain ⟨store, m⟩ := st
  obtain ⟨kyc, act, tfa, mob, em, pw⟩ := m
  obtain ⟨se, ss, sm, sexp, sat⟩ := s
  cases lk with
  | notFound => exact hinv
  | found e =>
    by_cases hlt : e < now
    · simpa [verifyOtpWithSession, hlt] using hinv
    · unfold accountInvariant at *
      cases ch <;> cases sm <;> cases se <;> cases ss <;>
        cases act <;> cases em <;> cases mob <;>
        simp_all [verifyOtpWithSession, activateMerchant, if_neg hlt]

/-- The legacy tail of `verifyOtp` preserves the activation invariant:
it only sets `isActive` when both channels are (or just became)
verified. -/
lemma verifyOtpLegacy_invariant (st : AuthState) (now : Nat)
    (ch : Channel) (lk : OtpLookup) (hinv : accountInvariant st.merchant) :
    accountInvariant (verifyOtpLegacy st now ch lk).2.merchant := by
  obtain ⟨store, m⟩ := st
  obtain ⟨kyc, act, tfa, mob, em, pw⟩ := m
  cases lk with
  | notFound => exact hinv
  | found e =>
    by_cases hlt : e < now
    · simpa [verifyOtpLegacy, hlt] using hinv
    · unfold accountInvariant at *
      cases ch <;> cases act <;> cases em <;> cases mob <;>
        simp_all [verifyOtpLegacy, if_neg hlt]

/-- C8: sign-up creates the account with every flag false (so the
invariant holds initially), and every Authentication State Machine write
— any `verifyOtp` path (session, first-activation, legacy) and the
password-reset write — preserves "active implies both channels
verified". -/
theorem authStateMachine_active_implies_verified :
    (∀ hash : String,
      (signUpMerchant hash).isActive = false ∧
      (signUpMerchant hash).isEmailVerified = false ∧
      (signUpMerchant hash).isMobileVerified = false ∧
      (signUpMerchant hash).is2faActive = false ∧
      (signUpMerchant hash).kycVerified = false) ∧
    (∀ (st : AuthState) (now : Nat) (hasTok : Bool) (ch : Channel)
        (lk : OtpLookup),
      accountInvariant st.merchant →
      accountInvariant (verifyOtp st now hasTok ch lk).2.merchant) ∧
    (∀ (m : Merchant) (len : Nat) (hash : String) (otpFound : Bool),
      accountInvariant m →
      accountInvariant (verifyPasswordReset m len hash otpFound).2) := by
  refine ⟨fun hash => ⟨rfl, rfl, rfl, rfl, rfl⟩, ?_, ?_⟩
  · intro st now hasTok ch lk hinv
    cases hasTok with
    | false =>
      have := verifyOtpLegacy_invariant st now ch lk hinv
      simpa [verifyOtp] using this
    | true =>
      rw [show verifyOtp st now true ch lk
          = (match redisGetSession st.store now with
             | none => (.errSessionInvalid, st)
             | some s =>
               if s.expiresAt < now then
                 (.errSessionExpired, { st with store := none })
               else if s.attempts ≥ 3 then
                 (.errTooManyAttempts, { st with store := none })
               else if s.isMfaOnly && (ch = Channel.email) then
                 (.errChannelNotAllowed, st)
               else
                 verifyOtpWithSession st now s ch lk) from by
        simp [verifyOtp]]
      cases hget : redisGetSession st.store now with
      | none => exact hinv
      | some s =>
        by_cases h1 : s.expiresAt < now
        · simpa [h1] using hinv
        · by_cases h2 : s.attempts ≥ 3
          · simp only [if_neg h1, if_pos h2]
            exact hinv
          · by_cases h3 : (s.isMfaOnly && decide (ch = Channel.email)) = true
            · simp only [if_neg h1, if_neg h2, h3, if_pos]
              simpa using hinv
            · simp only [if_neg h1, if_neg h2, h3]
              simpa using verifyOtpWithSession_invariant st now s ch lk hinv
  · intro m len hash otpFound hinv
    unfold verifyPasswordReset
    split_ifs <;> exact hinv

/-- C8 witness: the preservation component applied to a just-signed-up
account going through a legacy email verification. -/
theorem authStateMachine_active_implies_verified_witness :
    accountInvariant
      (verifyOtp ⟨none, signUpMerchant "h"⟩ 0 false .email (.found 5)).2.merchant :=
  authStateMachine_active_implies_verified.2.1
    ⟨none, signUpMerchant "h"⟩ 0 false .email (.found 5) (by decide)

/-! ## Claim C10 — session lifetime never extended -/

/-- The legacy tail of `verifyOtp` never touches the Redis session
slot. -/
lemma verifyOtpLegacy_store_unchanged (st : AuthState) (now : Nat)
    (ch : Channel) (lk : OtpLookup) :
    (verifyOtpLegacy st now ch lk).2.store = st.store := by
  unfold verifyOtpLegacy
  cases lk with
  | notFound => rfl
  | found e =>
    by_cases hlt : e < now
    · simp [if_pos hlt]
    · cases ch <;> simp only [if_neg hlt] <;> split_ifs <;> rfl

/-- C10: whatever `verifyOtp` does to a stored session `⟨s, re⟩` — a
failed-attempt increment, a partial first-activation flag update, or
nothing — any session still stored afterwards keeps the original
`expiresAt`, and its Redis visibility either is the original one or is
the `setEx` rewrite `now + ⌊(expiresAt − now)/1000⌋·1000` seconds, which
never reaches past the original `expiresAt`. -/
theorem mfaSession_lifetime_never_extended
    (store : Option StoredSession) (m : Merchant) (now : Nat)
    (hasTok : Bool) (ch : Channel) (lk : OtpLookup)
    (s : MfaSession) (re : Nat) (hstore : store = some ⟨s, re⟩) :
    ∀ s' re',
      (verifyOtp ⟨store, m⟩ now hasTok ch lk).2.store = some ⟨s', re'⟩ →
      s'.expiresAt = s.expiresAt ∧
      (re' = re ∨
        (re' = now + remainingTtlMs s.expiresAt now ∧ re' ≤ s.expiresAt)) := by
  subst hstore
  obtain ⟨se, ss, sm, sexp, sat⟩ := s
  intro s' re' hres
  have httl : now ≤ sexp → now + remainingTtlMs sexp now ≤ sexp :=
    fun h => remainingTtlMs_le sexp now h
  cases hasTok with
  | false =>
    have hst : (verifyOtp ⟨some ⟨⟨se, ss, sm, sexp, sat⟩, re⟩, m⟩ now false ch lk).2.store
        = some ⟨⟨se, ss, sm, sexp, sat⟩, re⟩ := by
      show (verifyOtpLegacy ⟨some ⟨⟨se, ss, sm, sexp, sat⟩, re⟩, m⟩ now ch lk).2.store = _
      rw [verifyOtpLegacy_store_unchanged]
    rw [hst] at hres
    simp only [Option.some.injEq, StoredSession.mk.injEq] at hres
    obtain ⟨h1, h2⟩ := hres
    exact ⟨by rw [← h1], Or.inl h2.symm⟩
  | true =>
    by_cases hv : now < re
    case neg =>
      simp [verifyOtp, redisGetSession, if_neg hv] at hres
      obtain ⟨h1, h2⟩ := hres
      exact ⟨by rw [← h1], Or.inl h2.symm⟩
    case pos =>
      by_cases h1 : sexp < now
      · simp [verifyOtp, redisGetSession, if_pos hv, if_pos h1] at hres
      · by_cases h2 : sat ≥ 3
        · simp [verifyOtp, redisGetSession, if_pos hv, if_neg h1, if_pos h2] at hres
        · by_cases h3 : (sm && decide (ch = Channel.email)) = true
          · simp [verifyOtp, redisGetSession, if_pos hv, if_neg h1, if_neg h2, h3]
              at hres
            obtain ⟨ha, hb⟩ := hres
            exact ⟨by rw [← ha], Or.inl hb.symm⟩
          · rw [verifyOtp_gates_passed ⟨some ⟨⟨se, ss, sm, sexp, sat⟩, re⟩, m⟩ now
                ⟨se, ss, sm, sexp, sat⟩ re ch lk rfl hv h1
                (by exact show sat < 3 by omega) (by simpa using h3)] at hres
            cases lk with
            | notFound =>
              simp [verifyOtpWithSession] at hres
              obtain ⟨ha, hb⟩ := hres
              refine ⟨by rw [← ha], Or.inr ⟨hb.symm, ?_⟩⟩
              rw [← hb]
              exact httl (by omega)
            | found e =>
              by_cases hlt : e < now
              · simp [verifyOtpWithSession, if_pos hlt] at hres
                obtain ⟨ha, hb⟩ := hres
                exact ⟨by rw [← ha], Or.inl hb.symm⟩
              · cases sm with
                | true =>
                  cases ch with
                  | email =>
                    simp [verifyOtpWithSession, if_neg hlt] at hres
                    obtain ⟨ha, hb⟩ := hres
                    exact ⟨by rw [← ha], Or.inl hb.symm⟩
                  | mobile => simp [verifyOtpWithSession, if_neg hlt] at hres
                  | sms => simp [verifyOtpWithSession, if_neg hlt] at hres
                | false =>
                  cases ch <;> cases se <;> cases ss <;>
                    simp [verifyOtpWithSession, if_neg hlt] at hres <;>
                    (obtain ⟨ha, hb⟩ := hres;
                     exact ⟨by rw [← ha],
                       Or.inr ⟨hb.symm, by rw [← hb]; exact httl (by omega)⟩⟩)

/-- C10 witness: a failed attempt rewrites the session with the original
`expiresAt` (5000 ms) and a visibility of `0 + 5000 ≤ 5000`. -/
theorem mfaSession_lifetime_never_extended_witness :
    (⟨false, false, false, 5000, 1⟩ : MfaSession).expiresAt = 5000 ∧
    ((0 + remainingTtlMs 5000 0 : Nat) = 6000 ∨
      ((0 + remainingTtlMs 5000 0 : Nat) = 0 + remainingTtlMs 5000 0 ∧
        (0 + remainingTtlMs 5000 0 : Nat) ≤ 5000)) :=
  mfaSession_lifetime_never_extended (some ⟨⟨false, false, false, 5000, 0⟩, 6000⟩)
    ⟨false, false, false, false, false, "h"⟩ 0 true .sms .notFound
    ⟨false, false, false, 5000, 0⟩ 6000 rfl
    ⟨false, false, false, 5000, 1⟩ (0 + remainingTtlMs 5000 0) rfl

end NineteenTsp
